import Mathlib

set_option maxHeartbeats 1000000

/-!
Verification development for the alumni-management application.

The development embeds the authentication and data-access slice of the
application: the alumni search endpoint (GET /api/alumni-tracer), the
registration endpoint (POST /api/auth/register), the login endpoint
(POST /api/auth/login), the session-token construction, and the password
hashing utilities.  Route handlers are embedded as pure functions from an
explicit store (the rows of the relevant table) and request fields to a
response value, together with the store they leave behind.
-/

/-- Case-insensitive character comparison.  It models the case-insensitive
collation MySQL applies to string comparison inside LIKE. -/
def lowEq (c d : Char) : Bool := c.toLower == d.toLower

/-- Matching of a MySQL LIKE pattern against a subject string, both given as
character lists.  A percent sign matches any (possibly empty) sequence of
characters, an underscore matches exactly one character, a backslash escapes
the following character so that it is matched literally, and every other
character matches case-insensitively.  The pattern must cover the whole
subject.  This models the evaluation of the two LIKE comparisons in the
alumni-tracer route's SQL statement. -/
def likeM : List Char → List Char → Bool
  | [], s => s.isEmpty
  | c :: p, s =>
    if c = '%' then s.tails.any (fun t => likeM p t)
    else if c = '_' then
      match s with
      | [] => false
      | _ :: s' => likeM p s'
    else if c = '\\' then
      match p with
      | [] =>
        match s with
        | [] => false
        | d :: s' => lowEq '\\' d && s'.isEmpty
      | e :: p' =>
        match s with
        | [] => false
        | d :: s' => lowEq e d && likeM p' s'
    else
      match s with
      | [] => false
      | d :: s' => lowEq c d && likeM p s'

/-- String-level LIKE matching. -/
def likeMatch (pat s : String) : Bool := likeM pat.toList s.toList

/-- A row of the alumni table: id, name, graduation_year, major. -/
structure Alumni where
  id : Nat
  name : String
  graduationYear : Nat
  major : String
deriving DecidableEq

/-- The textual form of the graduation_year column: MySQL converts the INT
value to its decimal string when it is compared with LIKE. -/
def gradStr (r : Alumni) : String := toString r.graduationYear

/-- The GET handler of /api/alumni-tracer.  It reads the query parameter
(defaulting to the empty string), builds the bound parameter by wrapping the
query text in percent signs, and returns the rows whose name or textual
graduation year matches the resulting LIKE pattern.  Because the value is
bound as data, the query text itself is never part of the SQL statement. -/
def searchAlumni (query : String) (store : List Alumni) : List Alumni :=
  let searchTerm := "%" ++ query ++ "%"
  store.filter fun r => likeMatch searchTerm r.name || likeMatch searchTerm (gradStr r)

/-- A character of a LIKE pattern with no special meaning: not a wildcard and
not the escape character. -/
def litChar (c : Char) : Bool := !(c == '%' || c == '_' || c == '\\')

/-- A query text all of whose characters are literal for LIKE. -/
def litFree (q : List Char) : Bool := q.all litChar

/-- Case-insensitive substring test, the predicate the specification uses to
describe the search: the query is a substring of the field after both are
lowercased. -/
def substrCI (q s : String) : Bool :=
  decide ((q.toList.map Char.toLower) <:+: (s.toList.map Char.toLower))

/-- Predicate on a row as the specification words it: the query text occurs
in the name field or in the graduation-year field treated as text (the
case-insensitivity is vacuous on the digit-only graduation-year text). -/
def specMatch (q : String) (r : Alumni) : Bool :=
  substrCI q r.name || substrCI q (gradStr r)

/-- The search as the specification words it: keep exactly the rows the
query text occurs in. -/
def searchAlumniSpec (q : String) (store : List Alumni) : List Alumni :=
  store.filter (specMatch q)

lemma likeM_pct_nil (s : List Char) : likeM ['%'] s = true := by
  simp only [likeM, if_pos]
  rw [List.any_eq_true]
  refine ⟨[], ?_, rfl⟩
  rw [List.mem_tails]
  exact List.nil_suffix

lemma litChar_spec {c : Char} (h : litChar c = true) :
    ¬c = '%' ∧ ¬c = '_' ∧ ¬c = '\\' := by
  simpa [litChar, not_or, and_assoc] using h

lemma likeM_lit_pct (q : List Char) (hq : litFree q = true) :
    ∀ s : List Char,
      (likeM (q ++ ['%']) s = true ↔ (q.map Char.toLower) <+: (s.map Char.toLower)) := by
  induction q with
  | nil =>
    intro s
    rw [List.nil_append, likeM_pct_nil]
    simp
  | cons c q ih =>
    rw [litFree, List.all_cons, Bool.and_eq_true] at hq
    obtain ⟨h1, h2, h3⟩ := litChar_spec hq.1
    intro s
    rw [List.cons_append, likeM.eq_def]
    dsimp only
    rw [if_neg h1, if_neg h2, if_neg h3]
    cases s with
    | nil => simp
    | cons d s' =>
      rw [List.map_cons, List.map_cons, List.cons_prefix_cons, Bool.and_eq_true]
      rw [ih hq.2 s']
      constructor
      · rintro ⟨hl, hp⟩
        exact ⟨by simpa [lowEq] using hl, hp⟩
      · rintro ⟨hl, hp⟩
        exact ⟨by simpa [lowEq] using hl, hp⟩

lemma suffix_map_back {u s : List Char} (f : Char → Char) (h : u <:+ s.map f) :
    ∃ t, t <:+ s ∧ u = t.map f := by
  obtain ⟨w, hw⟩ := h
  refine ⟨s.drop w.length, List.drop_suffix _ _, ?_⟩
  have h2 : (s.map f).drop w.length = u := by
    rw [← hw, List.drop_left]
  rw [List.map_drop, h2]

lemma likeM_wrap_iff (q : List Char) (hq : litFree q = true) (s : List Char) :
    likeM ('%' :: (q ++ ['%'])) s = true ↔
      (q.map Char.toLower) <:+: (s.map Char.toLower) := by
  rw [likeM.eq_def]
  dsimp only
  rw [if_pos rfl, List.any_eq_true]
  constructor
  · rintro ⟨t, ht, hm⟩
    rw [List.mem_tails] at ht
    rw [likeM_lit_pct q hq t] at hm
    exact List.infix_iff_prefix_suffix.mpr ⟨t.map Char.toLower, hm, ht.map Char.toLower⟩
  · intro h
    obtain ⟨u, hpre, hsuf⟩ := List.infix_iff_prefix_suffix.mp h
    obtain ⟨t, hts, rfl⟩ := suffix_map_back Char.toLower hsuf
    exact ⟨t, (List.mem_tails t s).mpr hts, (likeM_lit_pct q hq t).mpr hpre⟩

lemma likeMatch_wrap (q s : String) (hq : litFree q.toList = true) :
    likeMatch ("%" ++ q ++ "%") s = substrCI q s := by
  have hd : ("%").data = ['%'] := rfl
  have hpat : ("%" ++ q ++ "%").toList = '%' :: (q.toList ++ ['%']) := by
    simp [String.toList, String.data_append, hd]
  rw [likeMatch, hpat, substrCI]
  by_cases hc : (q.toList.map Char.toLower) <:+: (s.toList.map Char.toLower)
  · rw [(likeM_wrap_iff q.toList hq s.toList).mpr hc, decide_eq_true hc]
  · rw [decide_eq_false hc, Bool.eq_false_iff]
    intro hx
    exact hc ((likeM_wrap_iff q.toList hq s.toList).mp hx)

lemma searchAlumni_eq_spec (q : String) (hq : litFree q.toList = true)
    (store : List Alumni) : searchAlumni q store = searchAlumniSpec q store := by
  simp only [searchAlumni, searchAlumniSpec]
  apply List.filter_congr
  intro r hr
  rw [specMatch, likeMatch_wrap q r.name hq, likeMatch_wrap q (gradStr r) hq]

lemma substrCI_nil (s : String) : substrCI "" s = true := by
  have h : ("" : String).toList = [] := rfl
  simp [substrCI, h]

/-- A row of the users table: id, name, email, password (the stored hash),
graduation_year, major.  The last two are nullable, mirroring request fields
the client may omit. -/
structure Account where
  id : Nat
  name : String
  email : String
  passwordHash : String
  graduationYear : Option String
  major : Option String
deriving DecidableEq

/-- An HTTP JSON response: status code and the key-value pairs of the JSON
object in the body. -/
structure Resp where
  status : Nat
  body : List (String × String)
deriving DecidableEq

/-- The result of the login route: status, JSON body, and the session token
placed in the Set-Cookie header when one is issued. -/
structure LoginResult where
  status : Nat
  body : List (String × String)
  sessionToken : Option String
deriving DecidableEq

/-- JavaScript truthiness of a request field extracted by destructuring: an
absent key yields undefined and the guard rejects it exactly like the empty
string. -/
def truthy : Option String → Bool
  | none => false
  | some s => !(s == "")

/-- The session token the login route builds on success: the user id and the
current wall-clock milliseconds, joined by a dash.  It is a deterministic
function of these two inputs; no randomness enters it. -/
def issueToken (id : Nat) (now : Nat) : String :=
  toString id ++ "-" ++ toString now

/-- The POST handler of /api/auth/register.  It is parameterized by the hash
function (the bcrypt wrapper) and returns the response together with the
users table it leaves behind.  The inserted row receives the next
auto-increment id. -/
def register (hash : String → String) (store : List Account)
    (name email password graduationYear major : Option String) :
    Resp × List Account :=
  if !truthy name || !truthy email || !truthy password then
    (⟨400, [("error", "Missing fields")]⟩, store)
  else
    match store.filter (fun u => u.email == email.getD "") with
    | _ :: _ => (⟨409, [("error", "User already exists")]⟩, store)
    | [] =>
      let hashedPassword := hash (password.getD "")
      let newAccount : Account :=
        ⟨store.length + 1, name.getD "", email.getD "", hashedPassword,
          graduationYear, major⟩
      (⟨201, [("message", "Registration successful")]⟩, store ++ [newAccount])

/-- The POST handler of /api/auth/login.  It is parameterized by the verify
function (the bcrypt wrapper) and by the current wall-clock milliseconds
read when the token is built.  The lookup models the SELECT by email; the
first returned row is the one compared against. -/
def login (verify : String → String → Bool) (now : Nat) (store : List Account)
    (email password : Option String) : LoginResult :=
  if !truthy email || !truthy password then
    ⟨400, [("error", "Email and password are required")], none⟩
  else
    match store.filter (fun u => u.email == email.getD "") with
    | [] => ⟨401, [("error", "Invalid credentials")], none⟩
    | user :: _ =>
      if verify (password.getD "") user.passwordHash then
        ⟨200, [("message", "Login successful")], some (issueToken user.id now)⟩
      else
        ⟨401, [("error", "Invalid credentials")], none⟩

/-- Modelled from the spec: the bcrypt primitives behind src/lib/hash.ts are
an external library whose source is not part of this repository, so they are
modelled from section 4.1 of the specification: hashing embeds the
randomly generated salt in the produced hash (the salt is made an explicit
argument standing for the random generator's output), and verification
re-derives the digest from the salt recovered from the hash.  The digest is
an injective stand-in for the bcrypt key derivation.  Splitting recovers the
characters before the first dollar sign as the salt. -/
def splitDollar : List Char → Option (List Char × List Char)
  | [] => none
  | c :: rest =>
    if c = '$' then some ([], rest)
    else (splitDollar rest).map (fun p => (c :: p.1, p.2))

/-- Modelled from the spec: hashPassword of src/lib/hash.ts, with the salt
produced by genSalt passed explicitly.  The hash embeds the salt before a
dollar sign, followed by the digest of salt and password. -/
def hashPassword (salt password : String) : String :=
  salt ++ "$" ++ salt ++ password

/-- Modelled from the spec: comparePassword of src/lib/hash.ts.  It recovers
the salt embedded in the hash, recomputes the digest for the candidate
password, and compares.  A hash with no embedded salt fails closed. -/
def comparePassword (password h : String) : Bool :=
  match splitDollar h.toList with
  | none => false
  | some (salt, digest) => digest == salt ++ password.toList

/-- Claim C1: the query text reaches the SQL statement only as a bound LIKE
parameter, never by interpolation, so the classic injection text is matched
as literal substring text: whenever no stored record contains it in its name
or graduation-year text, the search returns zero matches instead of all
records. -/
theorem searchAlumni_injection_literal (store : List Alumni)
    (h : ∀ r ∈ store, substrCI "' OR '1'='1" r.name = false ∧
      substrCI "' OR '1'='1" (gradStr r) = false) :
    searchAlumni "' OR '1'='1" store = [] := by
  rw [searchAlumni_eq_spec _ (by decide), searchAlumniSpec, List.filter_eq_nil_iff]
  intro r hr
  simp [specMatch, (h r hr).1, (h r hr).2]

/-- Claim C1 witness: a concrete two-row store containing the injection text
nowhere returns zero matches for it. -/
theorem searchAlumni_injection_literal_witness :
    searchAlumni "' OR '1'='1"
      [⟨1, "Jane Doe", 2010, "Computer Science"⟩,
        ⟨2, "John Smith", 1999, "Mathematics"⟩] = [] :=
  searchAlumni_injection_literal _ (by decide)

/-- Claim C2 counterexample: for the query text consisting of a single
percent sign, the route returns a row although the query text is not a
substring of its name or of its graduation-year text, because the query text
is inserted into the LIKE pattern without escaping and the percent sign acts
as a wildcard there. -/
theorem searchAlumni_wildcard_mismatch :
    searchAlumni "%" [⟨1, "Al", 2010, "CS"⟩] = [⟨1, "Al", 2010, "CS"⟩] ∧
      searchAlumniSpec "%" [⟨1, "Al", 2010, "CS"⟩] = [] :=
  ⟨rfl, rfl⟩

/-- Claim C2 (amended): for every query text containing none of the LIKE
metacharacters (percent sign, underscore, backslash), the search returns
exactly the records the query text occurs in, case-insensitively, in the
name field or in the graduation-year field treated as text; the empty query
returns every record. -/
theorem searchAlumni_literal_queries_spec (store : List Alumni) :
    (∀ q : String, litFree q.toList = true →
      searchAlumni q store = searchAlumniSpec q store) ∧
      searchAlumni "" store = store := by
  refine ⟨fun q hq => searchAlumni_eq_spec q hq store, ?_⟩
  rw [searchAlumni_eq_spec _ (by decide), searchAlumniSpec, List.filter_eq_self]
  intro r hr
  simp [specMatch, substrCI_nil]

/-- Claim C2 witness: the amended equivalence evaluated on a concrete store
and the wildcard-free query text of the letters j and a. -/
theorem searchAlumni_literal_queries_spec_witness :
    searchAlumni "ja" [⟨1, "Jane Doe", 2010, "CS"⟩] =
        searchAlumniSpec "ja" [⟨1, "Jane Doe", 2010, "CS"⟩] ∧
      searchAlumni "" [⟨1, "Jane Doe", 2010, "CS"⟩] = [⟨1, "Jane Doe", 2010, "CS"⟩] :=
  ⟨(searchAlumni_literal_queries_spec _).1 "ja" (by decide),
    (searchAlumni_literal_queries_spec _).2⟩

/-- Claim C7 counterexample: the query text 2010 returns a row whose
graduation-year text does not contain 2010, because the row's name field
contains it and the route matches on the name field as well. -/
theorem searchAlumni_year_query_name_hit :
    searchAlumni "2010" [⟨2, "Agent 2010", 1999, "Mathematics"⟩] =
        [⟨2, "Agent 2010", 1999, "Mathematics"⟩] ∧
      substrCI "2010" (gradStr ⟨2, "Agent 2010", 1999, "Mathematics"⟩) = false :=
  ⟨rfl, rfl⟩

/-- Claim C7 (amended): the query text 2010 returns exactly the records in
which 2010 occurs in the name field or in the graduation-year field treated
as text, case-insensitively. -/
theorem searchAlumni_year_query_spec (store : List Alumni) :
    searchAlumni "2010" store =
      store.filter (fun r => substrCI "2010" r.name || substrCI "2010" (gradStr r)) := by
  rw [searchAlumni_eq_spec "2010" (by decide) store]
  rfl

/-- Claim C3 exhibit: the session token is computed from the account id and
the wall-clock reading alone; at account id 1 and clock reading
1700000000000 every issuance yields the same string 1-1700000000000, with no
contribution from any random source. -/
theorem issueToken_deterministic_eval :
    issueToken 1 1700000000000 = "1-1700000000000" := rfl

/-- Claim C4: with non-empty email and password, an unknown email and a
known email whose stored hash rejects the password produce identical login
responses: status 401, the same one-field body, and no session cookie. -/
theorem login_uniform_invalid (verify : String → String → Bool) (now : Nat)
    (store : List Account) (e p : String) (he : ¬e = "") (hp : ¬p = "")
    (h : store.filter (fun u => u.email == e) = [] ∨
      ∃ u rest, store.filter (fun u => u.email == e) = u :: rest ∧
        verify p u.passwordHash = false) :
    login verify now store (some e) (some p) =
      ⟨401, [("error", "Invalid credentials")], none⟩ := by
  rcases h with h | ⟨u, rest, hfil, hver⟩
  · simp [login, truthy, he, hp, h]
  · simp [login, truthy, he, hp, hfil, hver]

/-- Claim C4 witness: a login against an empty store returns the uniform
invalid-credentials response. -/
theorem login_uniform_invalid_witness :
    login (fun _ _ => false) 0 [] (some "jane@example.com") (some "wrong") =
      ⟨401, [("error", "Invalid credentials")], none⟩ :=
  login_uniform_invalid _ 0 [] _ _ (by decide) (by decide) (Or.inl rfl)

/-- Claim C5: a registration whose required fields are non-empty and whose
email is already present in the store fails with status 409 and returns the
store unchanged: no row of the existing account is modified and no duplicate
row is inserted. -/
theorem register_duplicate_conflict (hash : String → String)
    (store : List Account) (n e p gy mj : Option String)
    (hn : truthy n = true) (he : truthy e = true) (hp : truthy p = true)
    (hmem : ∃ a ∈ store, a.email = e.getD "") :
    register hash store n e p gy mj =
      (⟨409, [("error", "User already exists")]⟩, store) := by
  have hcond : (!truthy n || !truthy e || !truthy p) = false := by
    simp [hn, he, hp]
  obtain ⟨a, ha, hae⟩ := hmem
  have hfil : store.filter (fun u => u.email == e.getD "") ≠ [] := by
    rw [ne_eq, List.filter_eq_nil_iff]
    push_neg
    exact ⟨a, ha, by simp [hae]⟩
  cases hf : store.filter (fun u => u.email == e.getD "") with
  | nil => exact absurd hf hfil
  | cons u rest => simp [register, hcond, hf]

/-- Claim C5 witness: re-registering an email present in a one-row store
yields status 409 and the unchanged row. -/
theorem register_duplicate_conflict_witness :
    register (fun s => s ++ "#")
        [⟨1, "Jane Doe", "jane@example.com", "h", none, none⟩]
        (some "Janet") (some "jane@example.com") (some "pw2") none none =
      (⟨409, [("error", "User already exists")]⟩,
        [⟨1, "Jane Doe", "jane@example.com", "h", none, none⟩]) :=
  register_duplicate_conflict _ _ _ _ _ none none (by decide) (by decide)
    (by decide) (by decide)

/-- Claim C8 counterexample: a concrete successful registration answers with
the fixed success message only; its body carries no field named id and no
value equal to the new account's identifier, so the response does not
contain the account's public identifier. -/
theorem register_success_no_identifier :
    (register (fun s => s ++ "#") [] (some "Jane Doe") (some "jane@example.com")
        (some "secure123") (some "2010") (some "Computer Science")).1 =
      ⟨201, [("message", "Registration successful")]⟩ ∧
      ¬∃ kv ∈ (register (fun s => s ++ "#") [] (some "Jane Doe")
        (some "jane@example.com") (some "secure123") (some "2010")
        (some "Computer Science")).1.body, kv.1 = "id" ∨ kv.2 = "1" := by
  exact ⟨rfl, by decide⟩

/-- Claim C8 (amended): on successful registration the route returns status
201 and a body holding only the fixed success message; the body is the same
for every hash function, store and request, so it contains neither an
account identifier nor the password nor its hash. -/
theorem register_success_fixed_body (hash : String → String)
    (store : List Account) (n e p gy mj : Option String)
    (hn : truthy n = true) (he : truthy e = true) (hp : truthy p = true)
    (hfree : store.filter (fun u => u.email == e.getD "") = []) :
    (register hash store n e p gy mj).1 =
      ⟨201, [("message", "Registration successful")]⟩ := by
  have hcond : (!truthy n || !truthy e || !truthy p) = false := by
    simp [hn, he, hp]
  simp [register, hcond, hfree]

/-- Claim C8 amended-form witness: the fixed body on a concrete successful
registration. -/
theorem register_success_fixed_body_witness :
    (register (fun s => s ++ "#") [] (some "Jane Doe") (some "jane@example.com")
        (some "secure123") none none).1 =
      ⟨201, [("message", "Registration successful")]⟩ :=
  register_success_fixed_body _ _ _ _ _ none none (by decide) (by decide)
    (by decide) rfl

/-- Claim C9: a required field supplied as the empty string is handled
exactly like an absent field in both routes, because the guards test
truthiness rather than key presence: the full results coincide and the
request is rejected with status 400. -/
theorem empty_field_like_absent (hash : String → String)
    (verify : String → String → Bool) (now : Nat) (store : List Account)
    (x y gy mj : Option String) :
    register hash store (some "") x y gy mj = register hash store none x y gy mj ∧
    register hash store x (some "") y gy mj = register hash store x none y gy mj ∧
    register hash store x y (some "") gy mj = register hash store x y none gy mj ∧
    (register hash store (some "") x y gy mj).1.status = 400 ∧
    login verify now store (some "") y = login verify now store none y ∧
    login verify now store x (some "") = login verify now store x none ∧
    (login verify now store (some "") y).status = 400 :=
  ⟨rfl, rfl, rfl, rfl, rfl, rfl, rfl⟩

/-- Claim C10: a registration that fails validation returns status 400 with
the fixed error body and the untouched store; the right-hand side mentions
neither the hash function nor any lookup of the store, so no hash
computation, existence query or insert contributes to the outcome. -/
theorem register_validation_no_effects (hash : String → String)
    (store : List Account) (n e p gy mj : Option String)
    (h : truthy n = false ∨ truthy e = false ∨ truthy p = false) :
    register hash store n e p gy mj = (⟨400, [("error", "Missing fields")]⟩, store) := by
  have hcond : (!truthy n || !truthy e || !truthy p) = true := by
    rcases h with h | h | h <;> simp [h]
  simp [register, hcond]

/-- Claim C10 witness: a registration with an absent name is rejected with
the fixed validation response and an unchanged empty store. -/
theorem register_validation_no_effects_witness :
    register (fun s => s) [] none (some "jane@example.com") (some "pw") none none =
      (⟨400, [("error", "Missing fields")]⟩, []) :=
  register_validation_no_effects _ _ _ _ _ none none (Or.inl rfl)

lemma splitDollar_append (salt : List Char) (hs : '$' ∉ salt) (rest : List Char) :
    splitDollar (salt ++ '$' :: rest) = some (salt, rest) := by
  induction salt with
  | nil => rfl
  | cons c cs ih =>
    rw [List.mem_cons, not_or] at hs
    rw [List.cons_append, splitDollar.eq_def]
    dsimp only
    rw [if_neg (fun hc => hs.1 hc.symm), ih hs.2]
    rfl

/-- Claim C6: verifying a password against the hash just produced for it
succeeds, for every password and every salt free of the separator the hash
embeds it behind. -/
theorem comparePassword_hashPassword (salt p : String)
    (hs : '$' ∉ salt.toList) :
    comparePassword p (hashPassword salt p) = true := by
  have hd : ("$").data = ['$'] := rfl
  have hlist : (hashPassword salt p).toList =
      salt.toList ++ '$' :: (salt.toList ++ p.toList) := by
    simp [hashPassword, String.toList, String.data_append, hd]
  rw [comparePassword, hlist, splitDollar_append _ hs]
  simp

/-- Claim C6 witness: the round trip on a concrete salt and password. -/
theorem comparePassword_hashPassword_witness :
    ('$' ∉ ("ab" : String).toList) ∧
      comparePassword "secure123" (hashPassword "ab" "secure123") = true :=
  ⟨by decide, comparePassword_hashPassword "ab" "secure123" (by decide)⟩
